import Mathlib

/-!
Shallow embedding of `src/preprocessing.py` (class `AudioPreprocessor`).

Samples are modelled as rationals (`ℚ`), a signal as `List ℚ`.  The external
DSP backend (librosa) supplies the actual time-stretch / pitch-shift sample
transformations; those are black boxes here, modelled as the fields of a
`DSPBackend` structure.  Python exceptions are modelled with `Except Err`.
-/

set_option autoImplicit false

/-- Errors raised by the module, mirroring the spec's taxonomy.  In the Python
source all of these are concrete exceptions distinguished by class and message:
`ValueError("Error loading audio: ...")` from `load_audio`,
`ValueError("Unknown technique: ...")` from `apply_preprocessing`,
librosa's `ParameterError` from `librosa.effects.time_stretch`, and numpy's
`ValueError` from a zero-size reduction in `np.max`. -/
inductive Err where
  | loadError (msg : String)
  | unknownTechniqueError (technique : String)
  | invalidParameterError (msg : String)
  | reductionError (msg : String)
deriving DecidableEq, Repr

/-- Python `int(...)` applied to a (real-valued) number: truncation toward
zero.  Used by `load_audio` as `int(self.sr * duration)`. -/
def pyInt (q : ℚ) : ℤ :=
  if q < 0 then -⌊-q⌋ else ⌊q⌋

/-- Python built-in `round(...)`: round half to even (banker's rounding).
This is the function named by the spec sentence `round(sr * duration)`;
it is not what the source computes (the source uses `int`). -/
def pyRound (q : ℚ) : ℤ :=
  if q - (⌊q⌋ : ℚ) < 1/2 then ⌊q⌋
  else if (1 : ℚ)/2 < q - (⌊q⌋ : ℚ) then ⌊q⌋ + 1
  else if ⌊q⌋ % 2 = 0 then ⌊q⌋ else ⌊q⌋ + 1

/-- The literal `1e-8` from `normalize_audio`. -/
def eps : ℚ := 1 / 100000000

/-- The external DSP backend's core sample transformations (librosa's
phase-vocoder time stretch and resampling pitch shift).  They are pure black
boxes: arbitrary total functions from samples to samples. -/
structure DSPBackend where
  timeStretchCore : List ℚ → ℚ → List ℚ
  pitchShiftCore : List ℚ → ℕ → ℤ → List ℚ

/-- Modelled from the spec: `librosa.effects.time_stretch` is external library
code (not in this repository).  Per the spec, the time-stretch operation
"fails with `InvalidParameterError` if `rate <= 0`" and otherwise delegates to
the backend's phase-preserving stretch. -/
def librosaTimeStretch (B : DSPBackend) (y : List ℚ) (rate : ℚ) :
    Except Err (List ℚ) :=
  if rate ≤ 0 then Except.error (Err.invalidParameterError "rate must be a positive number")
  else Except.ok (B.timeStretchCore y rate)

/-- Modelled from the spec: `librosa.effects.pitch_shift` is external library
code.  Per the spec it performs a resample-based pitch shift at the given
sample rate, with "no local validation beyond type" on `n_steps`. -/
def librosaPitchShift (B : DSPBackend) (y : List ℚ) (sr : ℕ) (n_steps : ℤ) :
    Except Err (List ℚ) :=
  Except.ok (B.pitchShiftCore y sr n_steps)

/-- `np.max(np.abs(y))`: numpy raises a `ValueError` ("zero-size array to
reduction operation maximum which has no identity") on an empty array, and
otherwise returns the maximum of the absolute values. -/
def npMaxAbs (y : List ℚ) : Except Err ℚ :=
  match y with
  | [] => Except.error (Err.reductionError "zero-size array to reduction operation maximum which has no identity")
  | a :: rest => Except.ok (rest.foldl (fun m s => max m |s|) |a|)

/-- The maximum absolute sample of a signal, as a total function
(`0` on the empty signal).  On nonempty signals it agrees with `npMaxAbs`. -/
def maxAbs (y : List ℚ) : ℚ :=
  y.foldl (fun m s => max m |s|) 0

/-- `AudioPreprocessor`: the single component.  Its only state is the
immutable sample rate `sr` fixed at construction (default 44100). -/
structure AudioPreprocessor where
  sr : ℕ

/-- `AudioPreprocessor.load_audio`.  The outcome of
`librosa.load(filepath, sr=self.sr, duration=duration)` is external file I/O
and decoding; it is passed in as `decoded` (decode failure carries the message
of the underlying exception).  The body mirrors the source: on decode failure
the `except` clause wraps the cause as `ValueError(f"Error loading audio: {e}")`;
on success `target_length = int(self.sr * duration)` and the signal is
zero-padded on the right (`np.pad` with constant mode) when shorter, or
truncated (`y[:target_length]`) otherwise. -/
def AudioPreprocessor.load_audio (p : AudioPreprocessor)
    (decoded : Except String (List ℚ)) (duration : ℚ) : Except Err (List ℚ) :=
  match decoded with
  | Except.error e => Except.error (Err.loadError ("Error loading audio: " ++ e))
  | Except.ok y =>
      let target_length : ℕ := (pyInt ((p.sr : ℚ) * duration)).toNat
      if y.length < target_length then
        Except.ok (y ++ List.replicate (target_length - y.length) 0)
      else
        Except.ok (y.take target_length)

/-- `AudioPreprocessor.time_stretch`: delegates to
`librosa.effects.time_stretch(y, rate=rate)` with no local validation. -/
def AudioPreprocessor.time_stretch (p : AudioPreprocessor) (B : DSPBackend)
    (y : List ℚ) (rate : ℚ) : Except Err (List ℚ) :=
  librosaTimeStretch B y rate

/-- `AudioPreprocessor.pitch_shift`: delegates to
`librosa.effects.pitch_shift(y, sr=self.sr, n_steps=n_steps)`. -/
def AudioPreprocessor.pitch_shift (p : AudioPreprocessor) (B : DSPBackend)
    (y : List ℚ) (n_steps : ℤ) : Except Err (List ℚ) :=
  librosaPitchShift B y p.sr n_steps

/-- `AudioPreprocessor.apply_preprocessing`: the five-way string dispatch.
`Except.bind` models Python exception propagation through the cascaded
branches. -/
def AudioPreprocessor.apply_preprocessing (p : AudioPreprocessor)
    (B : DSPBackend) (y : List ℚ) (technique : String)
    (time_stretch_rate : ℚ) (pitch_shift_steps : ℤ) : Except Err (List ℚ) :=
  if technique = "none" then Except.ok y
  else if technique = "time_stretch" then p.time_stretch B y time_stretch_rate
  else if technique = "pitch_shift" then p.pitch_shift B y pitch_shift_steps
  else if technique = "pitch_then_time" then
    (p.pitch_shift B y pitch_shift_steps).bind
      (fun y2 => p.time_stretch B y2 time_stretch_rate)
  else if technique = "time_then_pitch" then
    (p.time_stretch B y time_stretch_rate).bind
      (fun y2 => p.pitch_shift B y2 pitch_shift_steps)
  else Except.error (Err.unknownTechniqueError technique)

/-- `AudioPreprocessor.normalize_audio`:
`return y / (np.max(np.abs(y)) + 1e-8)`. -/
def AudioPreprocessor.normalize_audio (p : AudioPreprocessor) (y : List ℚ) :
    Except Err (List ℚ) :=
  (npMaxAbs y).map (fun m => y.map (fun s => s / (m + eps)))

/-- C8: `apply_preprocessing(y, 'none', ...)` is the identity for any signal
and any parameter values: it returns `y` unchanged. -/
theorem c8_none_identity (p : AudioPreprocessor) (B : DSPBackend) (y : List ℚ)
    (time_stretch_rate : ℚ) (pitch_shift_steps : ℤ) :
    p.apply_preprocessing B y "none" time_stretch_rate pitch_shift_steps
      = Except.ok y := rfl

/-- C2: the two cascade techniques compose the same two operations in opposite
orders: `pitch_then_time` is `time_stretch(pitch_shift(y, steps), rate)` and
`time_then_pitch` is `pitch_shift(time_stretch(y, rate), steps)` (with
`Except.bind` propagating a failure of the first stage, as Python exceptions
do). -/
theorem c2_cascade_orders (p : AudioPreprocessor) (B : DSPBackend) (y : List ℚ)
    (rate : ℚ) (steps : ℤ) :
    p.apply_preprocessing B y "pitch_then_time" rate steps
      = (p.pitch_shift B y steps).bind (fun z => p.time_stretch B z rate)
    ∧ p.apply_preprocessing B y "time_then_pitch" rate steps
      = (p.time_stretch B y rate).bind (fun z => p.pitch_shift B z steps) := by
  constructor <;> rfl

/-- The identity backend: a concrete `DSPBackend` whose core transformations
return their input unchanged (a test double in the sense of the spec's design
notes). -/
def idBackend : DSPBackend :=
  ⟨fun z _ => z, fun z _ _ => z⟩

lemma eps_pos : (0 : ℚ) < eps := by norm_num [eps]

lemma foldl_max_le_init (y : List ℚ) :
    ∀ acc : ℚ, acc ≤ y.foldl (fun m s => max m |s|) acc := by
  induction y with
  | nil => intro acc; exact le_refl acc
  | cons a t ih =>
      intro acc
      rw [List.foldl_cons]
      exact le_trans (le_max_left acc |a|) (ih (max acc |a|))

lemma mem_le_foldl_max (y : List ℚ) :
    ∀ acc : ℚ, ∀ s ∈ y, |s| ≤ y.foldl (fun m s => max m |s|) acc := by
  induction y with
  | nil => intro acc s hs; exact absurd hs (List.not_mem_nil s)
  | cons a t ih =>
      intro acc s hs
      rw [List.foldl_cons]
      rcases List.mem_cons.mp hs with h | h
      · subst h
        exact le_trans (le_max_right acc |s|) (foldl_max_le_init t (max acc |s|))
      · exact ih (max acc |a|) s h

lemma maxAbs_nonneg (y : List ℚ) : 0 ≤ maxAbs y :=
  foldl_max_le_init y 0

lemma abs_le_maxAbs {y : List ℚ} {s : ℚ} (hs : s ∈ y) : |s| ≤ maxAbs y :=
  mem_le_foldl_max y 0 s hs

lemma maxAbs_add_eps_pos (y : List ℚ) : 0 < maxAbs y + eps := by
  have h := maxAbs_nonneg y
  have h2 := eps_pos
  linarith

lemma npMaxAbs_ok (y : List ℚ) (hne : y ≠ []) :
    npMaxAbs y = Except.ok (maxAbs y) := by
  cases y with
  | nil => exact absurd rfl hne
  | cons a t =>
      simp [npMaxAbs, maxAbs, List.foldl_cons, max_eq_right (abs_nonneg a)]

lemma normalize_audio_eq (p : AudioPreprocessor) (y : List ℚ) (hne : y ≠ []) :
    p.normalize_audio y = Except.ok (y.map (fun s => s / (maxAbs y + eps))) := by
  simp [AudioPreprocessor.normalize_audio, npMaxAbs_ok y hne, Except.map]

/-- C3 (corrected): for every nonempty signal `y`, `normalize_audio(y)` returns
the signal obtained by dividing every sample of `y` by
`(max over all samples of |sample|) + 1e-8`.  (On the empty signal the source
raises instead of returning: see the counterexample.) -/
theorem c3_normalize_formula (p : AudioPreprocessor) (y : List ℚ)
    (hne : y ≠ []) :
    p.normalize_audio y = Except.ok (y.map (fun s => s / (maxAbs y + eps))) :=
  normalize_audio_eq p y hne

/-- C3 counterexample: on the empty signal, `np.max(np.abs(y))` raises numpy's
zero-size-reduction `ValueError`, so `normalize_audio` does not return the
divided signal — the claim's universal quantification over every signal
fails. -/
theorem c3_counterexample :
    AudioPreprocessor.normalize_audio ⟨44100⟩ []
      = Except.error (Err.reductionError "zero-size array to reduction operation maximum which has no identity")
    ∧ AudioPreprocessor.normalize_audio ⟨44100⟩ []
      ≠ Except.ok (([] : List ℚ).map (fun s => s / (maxAbs [] + eps))) := by
  constructor
  · rfl
  · simp [AudioPreprocessor.normalize_audio, npMaxAbs, Except.map]

/-- C3 witness: the normalization formula evaluated on the concrete signal
`[2, -4]`. -/
theorem c3_witness :
    AudioPreprocessor.normalize_audio ⟨44100⟩ [2, -4]
      = Except.ok [200000000/400000001, -(400000000/400000001)] := by
  rw [c3_normalize_formula ⟨44100⟩ [2, -4] (by decide)]
  norm_num [maxAbs, List.foldl, eps]

/-- C4 (corrected): for every nonempty signal, `normalize_audio` returns (does
not raise) a signal of the same length with every sample bounded by
`1 + 1e-8` in absolute value, and on a nonempty all-zero signal the result is
all-zero; the divisor `maxAbs y + 1e-8` is nonzero in every case
(`maxAbs_add_eps_pos`), which is the no-NaN/Inf guard.  (On the empty — hence
vacuously all-zero — signal the source raises: see the counterexample.) -/
theorem c4_normalize_safety (p : AudioPreprocessor) (y : List ℚ)
    (hne : y ≠ []) :
    ∃ z, p.normalize_audio y = Except.ok z ∧ z.length = y.length ∧
      (∀ s ∈ z, |s| ≤ 1 + eps) ∧ ((∀ s ∈ y, s = 0) → ∀ s ∈ z, s = 0) := by
  refine ⟨_, normalize_audio_eq p y hne, by simp, ?_, ?_⟩
  · intro s hs
    rcases List.mem_map.mp hs with ⟨t, ht, rfl⟩
    have hpos := maxAbs_add_eps_pos y
    have h1 : |t / (maxAbs y + eps)| = |t| / (maxAbs y + eps) := by
      rw [abs_div, abs_of_pos hpos]
    have h2 : |t| ≤ maxAbs y + eps := by
      have := abs_le_maxAbs ht
      have := eps_pos
      linarith
    have h3 : |t| / (maxAbs y + eps) ≤ 1 := (div_le_one hpos).mpr h2
    have h4 := eps_pos
    rw [h1]
    linarith
  · intro hz s hs
    rcases List.mem_map.mp hs with ⟨t, ht, rfl⟩
    rw [hz t ht, zero_div]

/-- C4 counterexample: the empty signal is (vacuously) all-zero, yet
`normalize_audio` raises numpy's zero-size-reduction error instead of
returning a signal. -/
theorem c4_counterexample :
    (List.all ([] : List ℚ) (fun s => s == 0)) = true
    ∧ AudioPreprocessor.normalize_audio ⟨44100⟩ []
      = Except.error (Err.reductionError "zero-size array to reduction operation maximum which has no identity") :=
  ⟨rfl, rfl⟩

/-- C4 witness: the safety statement evaluated on the concrete all-zero signal
`[0, 0]`. -/
theorem c4_witness :
    ∃ z, AudioPreprocessor.normalize_audio ⟨44100⟩ [0, 0] = Except.ok z ∧
      z.length = ([0, 0] : List ℚ).length ∧
      (∀ s ∈ z, |s| ≤ 1 + eps) ∧
      ((∀ s ∈ ([0, 0] : List ℚ), s = 0) → ∀ s ∈ z, s = 0) :=
  c4_normalize_safety ⟨44100⟩ [0, 0] (by decide)

/-- C10 (corrected): for every nonempty signal `y`, `normalize_audio(y)` is a
positive scalar multiple of `y`: there is a single constant `c > 0` with every
output sample equal to `c` times the corresponding input sample; consequently
the length and the sign of every sample are preserved.  (On the empty signal
the source raises: see the counterexample.) -/
theorem c10_normalize_scalar (p : AudioPreprocessor) (y : List ℚ)
    (hne : y ≠ []) :
    ∃ c : ℚ, 0 < c ∧ p.normalize_audio y = Except.ok (y.map (fun s => c * s)) ∧
      (y.map (fun s => c * s)).length = y.length ∧
      ∀ s ∈ y, (0 < s → 0 < c * s) ∧ (s < 0 → c * s < 0) := by
  have hpos := maxAbs_add_eps_pos y
  have hc : (0 : ℚ) < (maxAbs y + eps)⁻¹ := inv_pos.mpr hpos
  refine ⟨(maxAbs y + eps)⁻¹, hc, ?_, by simp, ?_⟩
  · have hf : (fun s : ℚ => s / (maxAbs y + eps))
        = fun s => (maxAbs y + eps)⁻¹ * s := by
      funext s
      rw [div_eq_mul_inv, mul_comm]
    rw [normalize_audio_eq p y hne, hf]
  · intro s hs
    exact ⟨fun h => mul_pos hc h, fun h => mul_neg_of_pos_of_neg hc h⟩

/-- C10 counterexample: on the empty signal `normalize_audio` raises, so it
returns no signal at all, let alone a scalar multiple of the input. -/
theorem c10_counterexample :
    AudioPreprocessor.normalize_audio ⟨44100⟩ []
      = Except.error (Err.reductionError "zero-size array to reduction operation maximum which has no identity")
    ∧ ¬ ∃ z : List ℚ, AudioPreprocessor.normalize_audio ⟨44100⟩ [] = Except.ok z := by
  refine ⟨rfl, ?_⟩
  rintro ⟨z, hz⟩
  simp [AudioPreprocessor.normalize_audio, npMaxAbs, Except.map] at hz

/-- C10 witness: the scalar-multiple statement evaluated on the concrete
signal `[1, -2]`. -/
theorem c10_witness :
    ∃ c : ℚ, 0 < c ∧
      AudioPreprocessor.normalize_audio ⟨44100⟩ [1, -2]
        = Except.ok (([1, -2] : List ℚ).map (fun s => c * s)) ∧
      (([1, -2] : List ℚ).map (fun s => c * s)).length = ([1, -2] : List ℚ).length ∧
      ∀ s ∈ ([1, -2] : List ℚ), (0 < s → 0 < c * s) ∧ (s < 0 → c * s < 0) :=
  c10_normalize_scalar ⟨44100⟩ [1, -2] (by decide)

/-- C1 (corrected): for every positive duration and every successfully decoded
file, `load_audio` returns a signal of exactly `int(sr * duration)` samples
(Python `int` truncation, not `round`): shorter decodes are right-padded with
zeros to the target and longer ones are truncated to the first target
samples. -/
theorem c1_load_audio_target_length (p : AudioPreprocessor) (y : List ℚ)
    (duration : ℚ) (h : 0 < duration) :
    ∃ z, p.load_audio (Except.ok y) duration = Except.ok z ∧
      z.length = (pyInt ((p.sr : ℚ) * duration)).toNat ∧
      (y.length < (pyInt ((p.sr : ℚ) * duration)).toNat →
        z = y ++ List.replicate ((pyInt ((p.sr : ℚ) * duration)).toNat - y.length) 0) ∧
      ((pyInt ((p.sr : ℚ) * duration)).toNat ≤ y.length →
        z = y.take (pyInt ((p.sr : ℚ) * duration)).toNat) := by
  by_cases hlen : y.length < (pyInt ((p.sr : ℚ) * duration)).toNat
  · refine ⟨y ++ List.replicate ((pyInt ((p.sr : ℚ) * duration)).toNat - y.length) 0,
      ?_, ?_, fun _ => rfl, fun hle => absurd hlen (not_lt.mpr hle)⟩
    · simp only [AudioPreprocessor.load_audio]
      rw [if_pos hlen]
    · rw [List.length_append, List.length_replicate]
      omega
  · refine ⟨y.take ((pyInt ((p.sr : ℚ) * duration)).toNat),
      ?_, ?_, fun hlt => absurd hlt hlen, fun _ => rfl⟩
    · simp only [AudioPreprocessor.load_audio]
      rw [if_neg hlen]
    · rw [List.length_take]
      omega

/-- C1 counterexample: with `sr = 1` and `duration = 3/2`, a successful decode
of the empty signal yields a signal of length `int(3/2) = 1`, while
`round(sr * duration) = round(3/2) = 2` — the code truncates with `int`, it
does not round. -/
theorem c1_counterexample :
    (0 : ℚ) < 3/2
    ∧ AudioPreprocessor.load_audio ⟨1⟩ (Except.ok []) (3/2) = Except.ok [0]
    ∧ pyRound (((1 : ℕ) : ℚ) * (3/2)) = 2
    ∧ (([0] : List ℚ).length : ℤ) ≠ pyRound (((1 : ℕ) : ℚ) * (3/2)) := by
  have hp : pyInt ((3 : ℚ)/2) = 1 := by norm_num [pyInt]
  refine ⟨by norm_num, ?_, by norm_num [pyRound], by norm_num [pyRound]⟩
  simp [AudioPreprocessor.load_audio, hp]

/-- C1 witness: the length law evaluated at `sr = 2`, `duration = 1`,
decoded signal `[5, 6, 7]` (truncation case, target length `2`). -/
theorem c1_witness :
    ∃ z, AudioPreprocessor.load_audio ⟨2⟩ (Except.ok [5, 6, 7]) 1 = Except.ok z ∧
      z.length = 2 := by
  obtain ⟨z, h1, h2, -, -⟩ :=
    c1_load_audio_target_length ⟨2⟩ [5, 6, 7] 1 (by norm_num)
  refine ⟨z, h1, h2.trans ?_⟩
  norm_num [pyInt]
  rfl

/-- C5: for every technique string outside the five recognized literals,
`apply_preprocessing` raises `UnknownTechniqueError` (Python
`ValueError(f"Unknown technique: ...")`); in particular it never falls back to
returning the signal unchanged. -/
theorem c5_unknown_technique (p : AudioPreprocessor) (B : DSPBackend)
    (y : List ℚ) (t : String) (rate : ℚ) (steps : ℤ)
    (h : t ∉ (["none", "time_stretch", "pitch_shift", "pitch_then_time",
        "time_then_pitch"] : List String)) :
    p.apply_preprocessing B y t rate steps
      = Except.error (Err.unknownTechniqueError t)
    ∧ p.apply_preprocessing B y t rate steps ≠ Except.ok y := by
  simp only [List.mem_cons, List.not_mem_nil, or_false, not_or] at h
  obtain ⟨h1, h2, h3, h4, h5⟩ := h
  constructor
  · simp [AudioPreprocessor.apply_preprocessing, h1, h2, h3, h4, h5]
  · simp [AudioPreprocessor.apply_preprocessing, h1, h2, h3, h4, h5]

/-- C5 witness: the rejection evaluated at the concrete technique string
`"bogus_value"`. -/
theorem c5_witness :
    AudioPreprocessor.apply_preprocessing ⟨44100⟩ idBackend [1, 2] "bogus_value" 1 0
      = Except.error (Err.unknownTechniqueError "bogus_value")
    ∧ AudioPreprocessor.apply_preprocessing ⟨44100⟩ idBackend [1, 2] "bogus_value" 1 0
      ≠ Except.ok [1, 2] :=
  c5_unknown_technique ⟨44100⟩ idBackend [1, 2] "bogus_value" 1 0 (by decide)

/-- C6: `load_audio` fails with `LoadError` exactly when the decode fails, the
error message chains the underlying cause, and no other operation of the
module ever produces a `LoadError`. -/
theorem c6_load_error_exactly (p : AudioPreprocessor) :
    (∀ (e : String) (duration : ℚ),
      p.load_audio (Except.error e) duration
        = Except.error (Err.loadError ("Error loading audio: " ++ e)))
    ∧ (∀ (y : List ℚ) (duration : ℚ),
        ∃ z, p.load_audio (Except.ok y) duration = Except.ok z)
    ∧ (∀ (B : DSPBackend) (y : List ℚ) (t : String) (rate : ℚ) (steps : ℤ)
        (m : String),
        p.apply_preprocessing B y t rate steps ≠ Except.error (Err.loadError m))
    ∧ (∀ (B : DSPBackend) (y : List ℚ) (rate : ℚ) (m : String),
        p.time_stretch B y rate ≠ Except.error (Err.loadError m))
    ∧ (∀ (B : DSPBackend) (y : List ℚ) (n : ℤ) (m : String),
        p.pitch_shift B y n ≠ Except.error (Err.loadError m))
    ∧ (∀ (y : List ℚ) (m : String),
        p.normalize_audio y ≠ Except.error (Err.loadError m)) := by
  refine ⟨fun e duration => rfl, ?_, ?_, ?_, ?_, ?_⟩
  · intro y duration
    by_cases hlen : y.length < (pyInt ((p.sr : ℚ) * duration)).toNat
    · exact ⟨y ++ List.replicate ((pyInt ((p.sr : ℚ) * duration)).toNat - y.length) 0,
        by simp only [AudioPreprocessor.load_audio]; rw [if_pos hlen]⟩
    · exact ⟨y.take ((pyInt ((p.sr : ℚ) * duration)).toNat),
        by simp only [AudioPreprocessor.load_audio]; rw [if_neg hlen]⟩
  · intro B y t rate steps m
    simp only [AudioPreprocessor.apply_preprocessing,
      AudioPreprocessor.time_stretch, AudioPreprocessor.pitch_shift,
      librosaTimeStretch, librosaPitchShift]
    split_ifs <;> simp [Except.bind]
  · intro B y rate m
    simp only [AudioPreprocessor.time_stretch, librosaTimeStretch]
    split_ifs <;> simp
  · intro B y n m
    simp [AudioPreprocessor.pitch_shift, librosaPitchShift]
  · intro y m
    cases y with
    | nil => simp [AudioPreprocessor.normalize_audio, npMaxAbs, Except.map]
    | cons a t => simp [AudioPreprocessor.normalize_audio, npMaxAbs, Except.map]

/-- C7: `time_stretch` fails with `InvalidParameterError` for every
non-positive rate (the validation lives in the external backend's
`librosa.effects.time_stretch`, modelled from the spec). -/
theorem c7_time_stretch_invalid_rate (p : AudioPreprocessor) (B : DSPBackend)
    (y : List ℚ) (rate : ℚ) (h : rate ≤ 0) :
    p.time_stretch B y rate
      = Except.error (Err.invalidParameterError "rate must be a positive number") := by
  simp [AudioPreprocessor.time_stretch, librosaTimeStretch, h]

/-- C7 witness: the rejection evaluated at the concrete rate `0`. -/
theorem c7_witness :
    (0 : ℚ) ≤ 0
    ∧ AudioPreprocessor.time_stretch ⟨44100⟩ idBackend [1] 0
      = Except.error (Err.invalidParameterError "rate must be a positive number") :=
  ⟨le_refl 0, c7_time_stretch_invalid_rate ⟨44100⟩ idBackend [1] 0 (le_refl 0)⟩

/-- C9: with the degenerate parameters `rate = 1` and `steps = 0`, both
cascades return the input unchanged, for every backend whose core operations
are identities at those parameters (the spec models the backend this way:
"`rate==1` is identity").  The wrapper itself introduces no deviation. -/
theorem c9_degenerate_identity (p : AudioPreprocessor) (B : DSPBackend)
    (y : List ℚ)
    (hts : ∀ z, B.timeStretchCore z 1 = z)
    (hps : ∀ z, B.pitchShiftCore z p.sr 0 = z) :
    p.apply_preprocessing B y "pitch_then_time" 1 0 = Except.ok y
    ∧ p.apply_preprocessing B y "time_then_pitch" 1 0 = Except.ok y := by
  have h1 : ¬ ((1 : ℚ) ≤ 0) := by norm_num
  constructor <;>
    simp [AudioPreprocessor.apply_preprocessing, AudioPreprocessor.time_stretch,
      AudioPreprocessor.pitch_shift, librosaTimeStretch, librosaPitchShift,
      h1, Except.bind, hts, hps]

/-- C9 witness: both cascades evaluated on the concrete signal `[3, 4]` with
the identity backend. -/
theorem c9_witness :
    AudioPreprocessor.apply_preprocessing ⟨44100⟩ idBackend [3, 4] "pitch_then_time" 1 0
      = Except.ok [3, 4]
    ∧ AudioPreprocessor.apply_preprocessing ⟨44100⟩ idBackend [3, 4] "time_then_pitch" 1 0
      = Except.ok [3, 4] :=
  c9_degenerate_identity ⟨44100⟩ idBackend [3, 4] (fun z => rfl) (fun z => rfl)
